import Mathlib

/-!
Shallow embedding of `homeassistant/components/deconz/binary_sensor.py`:
the deCONZ binary-sensor entity-description table, the unique-id migration
(`async_update_unique_id`), the discovery handler (`async_add_sensor` inside
`async_setup_entry`), and the wrapper entity (`DeconzBinarySensor`) with its
`is_on` and `extra_state_attributes` properties.
-/

set_option maxRecDepth 4000

/-- Device classes used by the description table
(`homeassistant.components.binary_sensor.BinarySensorDeviceClass`). -/
inductive BinarySensorDeviceClass where
  | SAFETY
  | CO
  | SMOKE
  | OPENING
  | MOTION
  | VIBRATION
  | MOISTURE
  | TAMPER
  | BATTERY
  deriving DecidableEq, Repr

/-- Entity categories used by the description table
(`homeassistant.const.EntityCategory`). -/
inductive EntityCategory where
  | DIAGNOSTIC
  deriving DecidableEq, Repr

/-- The concrete pydeconz sensor classes the module's runtime-type checks
(`isinstance`) discriminate on.  `OtherSensor` stands for any further
`SensorBase` subclass covered by `SensorResources` (battery, humidity, ...),
which is not an instance of any of the listed classes. -/
inductive SensorType where
  | Alarm
  | CarbonMonoxide
  | Fire
  | GenericFlag
  | OpenClose
  | Presence
  | Vibration
  | Water
  | OtherSensor
  deriving DecidableEq, Repr

/-- A gateway sensor (a pydeconz `SensorResources` object) with the fields the
module reads.  Fields that pydeconz types as `bool | None` (resp. values that
may be absent) are `Option`s.  `internal_temperature` only ever flows through
a null check and into an attribute value, so its numeric type is abstracted
as `Int`. -/
structure PydeconzSensor where
  type : SensorType
  unique_id : String
  «on» : Option Bool := none
  internal_temperature : Option Int := none
  tampered : Option Bool := none
  low_battery : Option Bool := none
  alarm : Option Bool := none
  carbon_monoxide : Option Bool := none
  fire : Option Bool := none
  in_test_mode : Option Bool := none
  flag : Option Bool := none
  «open» : Option Bool := none
  presence : Option Bool := none
  dark : Option Bool := none
  vibration : Option Bool := none
  orientation : Option (List Int) := none
  tilt_angle : Option Int := none
  vibration_strength : Option Int := none
  water : Option Bool := none
  deriving DecidableEq, Repr

/-- Python `isinstance(sensor, C)` for the leaf sensor classes above
(they are sibling subclasses of `SensorBase`, so `isinstance` against a leaf
class is a tag comparison). -/
def isinstance (sensor : PydeconzSensor) (t : SensorType) : Bool :=
  sensor.type == t

/-- Source `DeconzBinarySensorDescription` (binary_sensor.py lines 68-76).
`instance_check = none` models the unset (`None`) runtime-type filter. -/
structure DeconzBinarySensorDescription where
  key : String
  device_class : Option BinarySensorDeviceClass := none
  entity_category : Option EntityCategory := none
  instance_check : Option SensorType := none
  name_suffix : String := ""
  old_unique_id_suffix : String := ""
  update_key : String
  value_fn : PydeconzSensor → Option Bool

/-- Source `ATTR_ORIENTATION` (line 39). -/
def ATTR_ORIENTATION : String := "orientation"

/-- Source `ATTR_TILTANGLE` (line 40). -/
def ATTR_TILTANGLE : String := "tiltangle"

/-- Source `ATTR_VIBRATIONSTRENGTH` (line 41). -/
def ATTR_VIBRATIONSTRENGTH : String := "vibrationstrength"

/-- Source `ATTR_ON` from `.const`. -/
def ATTR_ON : String := "on"

/-- Source `ATTR_DARK` from `.const`. -/
def ATTR_DARK : String := "dark"

/-- Source `ATTR_TEMPERATURE` from `homeassistant.const`. -/
def ATTR_TEMPERATURE : String := "temperature"

/-- Source `PROVIDES_EXTRA_ATTRIBUTES` (lines 43-52). -/
def PROVIDES_EXTRA_ATTRIBUTES : List String :=
  ["alarm", "carbon_monoxide", "fire", "flag", "open", "presence", "vibration", "water"]

/-- Source `ENTITY_DESCRIPTIONS` entry with key `"alarm"` (lines 80-86). -/
def alarmDescription : DeconzBinarySensorDescription :=
  { key := "alarm"
    update_key := "alarm"
    value_fn := fun device => device.alarm
    instance_check := some SensorType.Alarm
    device_class := some BinarySensorDeviceClass.SAFETY }

/-- Source `ENTITY_DESCRIPTIONS` entry with key `"carbon_monoxide"` (lines 87-93). -/
def carbonMonoxideDescription : DeconzBinarySensorDescription :=
  { key := "carbon_monoxide"
    update_key := "carbonmonoxide"
    value_fn := fun device => device.carbon_monoxide
    instance_check := some SensorType.CarbonMonoxide
    device_class := some BinarySensorDeviceClass.CO }

/-- Source `ENTITY_DESCRIPTIONS` entry with key `"fire"` (lines 94-100). -/
def fireDescription : DeconzBinarySensorDescription :=
  { key := "fire"
    update_key := "fire"
    value_fn := fun device => device.fire
    instance_check := some SensorType.Fire
    device_class := some BinarySensorDeviceClass.SMOKE }

/-- Source `ENTITY_DESCRIPTIONS` entry with key `"in_test_mode"` (lines 101-110). -/
def inTestModeDescription : DeconzBinarySensorDescription :=
  { key := "in_test_mode"
    update_key := "test"
    value_fn := fun device => device.in_test_mode
    instance_check := some SensorType.Fire
    name_suffix := "Test Mode"
    old_unique_id_suffix := "test mode"
    device_class := some BinarySensorDeviceClass.SMOKE
    entity_category := some EntityCategory.DIAGNOSTIC }

/-- Source `ENTITY_DESCRIPTIONS` entry with key `"flag"` (lines 111-116). -/
def flagDescription : DeconzBinarySensorDescription :=
  { key := "flag"
    update_key := "flag"
    value_fn := fun device => device.flag
    instance_check := some SensorType.GenericFlag }

/-- Source `ENTITY_DESCRIPTIONS` entry with key `"open"` (lines 117-123). -/
def openDescription : DeconzBinarySensorDescription :=
  { key := "open"
    update_key := "open"
    value_fn := fun device => device.«open»
    instance_check := some SensorType.OpenClose
    device_class := some BinarySensorDeviceClass.OPENING }

/-- Source `ENTITY_DESCRIPTIONS` entry with key `"presence"` (lines 124-130). -/
def presenceDescription : DeconzBinarySensorDescription :=
  { key := "presence"
    update_key := "presence"
    value_fn := fun device => device.presence
    instance_check := some SensorType.Presence
    device_class := some BinarySensorDeviceClass.MOTION }

/-- Source `ENTITY_DESCRIPTIONS` entry with key `"vibration"` (lines 131-137). -/
def vibrationDescription : DeconzBinarySensorDescription :=
  { key := "vibration"
    update_key := "vibration"
    value_fn := fun device => device.vibration
    instance_check := some SensorType.Vibration
    device_class := some BinarySensorDeviceClass.VIBRATION }

/-- Source `ENTITY_DESCRIPTIONS` entry with key `"water"` (lines 138-144). -/
def waterDescription : DeconzBinarySensorDescription :=
  { key := "water"
    update_key := "water"
    value_fn := fun device => device.water
    instance_check := some SensorType.Water
    device_class := some BinarySensorDeviceClass.MOISTURE }

/-- Source `ENTITY_DESCRIPTIONS` entry with key `"tampered"` (lines 145-153);
no `instance_check`. -/
def tamperedDescription : DeconzBinarySensorDescription :=
  { key := "tampered"
    update_key := "tampered"
    value_fn := fun device => device.tampered
    name_suffix := "Tampered"
    old_unique_id_suffix := "tampered"
    device_class := some BinarySensorDeviceClass.TAMPER
    entity_category := some EntityCategory.DIAGNOSTIC }

/-- Source `ENTITY_DESCRIPTIONS` entry with key `"low_battery"` (lines 154-162);
no `instance_check`. -/
def lowBatteryDescription : DeconzBinarySensorDescription :=
  { key := "low_battery"
    update_key := "lowbattery"
    value_fn := fun device => device.low_battery
    name_suffix := "Low Battery"
    old_unique_id_suffix := "low battery"
    device_class := some BinarySensorDeviceClass.BATTERY
    entity_category := some EntityCategory.DIAGNOSTIC }

/-- Source `ENTITY_DESCRIPTIONS` (lines 79-163), in source order. -/
def ENTITY_DESCRIPTIONS : List DeconzBinarySensorDescription :=
  [alarmDescription, carbonMonoxideDescription, fireDescription,
   inTestModeDescription, flagDescription, openDescription,
   presenceDescription, vibrationDescription, waterDescription,
   tamperedDescription, lowBatteryDescription]

/-- Modelled from the spec: the host platform's entity registry (the module
only uses `er.async_get_entity_id` and `er.async_update_entity`, whose code is
outside this unit).  Per the spec it is "an entity-registry lookup/rename API":
a table of registry entries, each an (entity id, unique id) pair, with entity
ids abstracted as numeric handles drawn from a freshness counter.  The
`DOMAIN`/`DECONZ_DOMAIN` scoping pair is constant in every call of the module
and is therefore left implicit. -/
structure EntityRegistry where
  next_id : Nat
  entries : List (Nat × String)
  deriving DecidableEq, Repr

/-- The unique ids currently present in the registry. -/
def regUids (reg : EntityRegistry) : List String :=
  reg.entries.map (fun e => e.2)

/-- Modelled from the spec: `er.async_get_entity_id(DOMAIN, DECONZ_DOMAIN, uid)`
returns the entity id registered under unique id `uid`, if any. -/
def async_get_entity_id (reg : EntityRegistry) (unique_id : String) : Option Nat :=
  (reg.entries.find? (fun e => e.2 == unique_id)).map (fun e => e.1)

/-- Modelled from the spec: `er.async_update_entity(entity_id,
new_unique_id=...)` rewrites the unique id of the entry with the given entity
id. -/
def async_update_entity (reg : EntityRegistry) (entity_id : Nat)
    (new_unique_id : String) : EntityRegistry :=
  { reg with
    entries := reg.entries.map
      (fun e => if e.1 == entity_id then (e.1, new_unique_id) else e) }

/-- Source `async_update_unique_id` (lines 166-186).  `serial` stands for
`serial_from_unique_id` from `.util`, whose code is outside this unit; the
claims do not depend on its behaviour, so it is kept as a parameter. -/
def async_update_unique_id (serial : String → String) (reg : EntityRegistry)
    (unique_id : String) (description : DeconzBinarySensorDescription) :
    EntityRegistry :=
  let new_unique_id := unique_id ++ "-" ++ description.key
  if (async_get_entity_id reg new_unique_id).isSome then
    reg
  else
    let unique_id :=
      if description.old_unique_id_suffix ≠ "" then
        serial unique_id ++ "-" ++ description.old_unique_id_suffix
      else unique_id
    match async_get_entity_id reg unique_id with
    | some entity_id => async_update_entity reg entity_id new_unique_id
    | none => reg

/-- Source `DeconzBinarySensor` (lines 218-247): the wrapper entity keeps a reference
to the gateway sensor and to its description (gateway plumbing and dispatcher
state are not read by the modelled properties). -/
structure DeconzBinarySensor where
  _device : PydeconzSensor
  entity_description : DeconzBinarySensorDescription

/-- Source `self.unique_id_suffix = description.key` (line 232). -/
def DeconzBinarySensor.unique_id_suffix (e : DeconzBinarySensor) : String :=
  e.entity_description.key

/-- Modelled from the spec: the wrapper's unique identifier, derived by the
`DeconzDevice` base class (outside this unit); per the spec it is "a derived
key combining the sensor's unique identifier and the description key". -/
def DeconzBinarySensor.unique_id (e : DeconzBinarySensor) : String :=
  e._device.unique_id ++ "-" ++ e.unique_id_suffix

/-- Source `DeconzBinarySensor.is_on` (lines 244-247). -/
def DeconzBinarySensor.is_on (e : DeconzBinarySensor) : Option Bool :=
  e.entity_description.value_fn e._device

/-- A value stored in the `extra_state_attributes` mapping
(`bool | float | int | list | None` in the source; the numeric payloads are
abstracted as `Int`). -/
inductive AttrValue where
  | ofBool (b : Bool)
  | ofInt (n : Int)
  | ofIntList (l : List Int)
  | null
  deriving DecidableEq, Repr

/-- An `int | None` Python value as stored in the attribute mapping. -/
def optIntValue : Option Int → AttrValue
  | some n => AttrValue.ofInt n
  | none => AttrValue.null

/-- A `list | None` Python value as stored in the attribute mapping. -/
def optListValue : Option (List Int) → AttrValue
  | some l => AttrValue.ofIntList l
  | none => AttrValue.null

/-- Source `DeconzBinarySensor.extra_state_attributes` (lines 249-272), as the
insertion-ordered key/value pairs of the Python dict. -/
def DeconzBinarySensor.extra_state_attributes (e : DeconzBinarySensor) :
    List (String × AttrValue) :=
  if ¬ (PROVIDES_EXTRA_ATTRIBUTES.contains e.entity_description.key) then
    []
  else
    (match e._device.«on» with
     | some v => [(ATTR_ON, AttrValue.ofBool v)]
     | none => [])
    ++ (match e._device.internal_temperature with
        | some v => [(ATTR_TEMPERATURE, AttrValue.ofInt v)]
        | none => [])
    ++ (if isinstance e._device SensorType.Presence then
          match e._device.dark with
          | some v => [(ATTR_DARK, AttrValue.ofBool v)]
          | none => []
        else if isinstance e._device SensorType.Vibration then
          [(ATTR_ORIENTATION, optListValue e._device.orientation),
           (ATTR_TILTANGLE, optIntValue e._device.tilt_angle),
           (ATTR_VIBRATIONSTRENGTH, optIntValue e._device.vibration_strength)]
        else [])

/-- The state threaded through one `async_add_sensor` invocation: the entity
registry plus the entities added to the platform so far. -/
structure SetupState where
  reg : EntityRegistry
  entities : List DeconzBinarySensor

/-- Modelled from the spec: `async_add_entities([entity])`.  The host platform
enforces the spec invariant "at most one wrapper per (sensor, description key)
pair; identifier uniqueness enforced via a derived key": an entity whose
derived unique id duplicates an already-added entity's is rejected.  Otherwise
the entity is added, reusing the registry entry with its unique id if one
exists and creating a fresh one if not. -/
def async_add_entities (st : SetupState) (ent : DeconzBinarySensor) : SetupState :=
  if st.entities.any (fun e => e.unique_id == ent.unique_id) then
    st
  else
    { reg :=
        if (async_get_entity_id st.reg ent.unique_id).isSome then st.reg
        else
          { next_id := st.reg.next_id + 1
            entries := st.reg.entries ++ [(st.reg.next_id, ent.unique_id)] }
      entities := st.entities ++ [ent] }

/-- The skip condition of the loop in `async_add_sensor` (lines 204-208),
with Python's short-circuit evaluation. -/
def shouldSkip (sensor : PydeconzSensor)
    (description : DeconzBinarySensorDescription) : Bool :=
  (match description.instance_check with
   | some t => !(isinstance sensor t)
   | none => false)
  || (description.value_fn sensor).isNone

/-- One iteration of the loop in `async_add_sensor` (lines 203-210). -/
def addSensorStep (serial : String → String) (sensor : PydeconzSensor)
    (st : SetupState) (description : DeconzBinarySensorDescription) : SetupState :=
  if shouldSkip sensor description then st
  else
    async_add_entities
      { st with
        reg := async_update_unique_id serial st.reg sensor.unique_id description }
      ⟨sensor, description⟩

/-- Source `async_add_sensor` (lines 198-210): iterate the description table over the
discovered sensor. -/
def async_add_sensor (serial : String → String) (sensor : PydeconzSensor)
    (st : SetupState) : SetupState :=
  ENTITY_DESCRIPTIONS.foldl (addSensorStep serial sensor) st

/-- The new unique id formed on line 176. -/
def newUid (unique_id : String) (description : DeconzBinarySensorDescription) :
    String :=
  unique_id ++ "-" ++ description.key

/-- The unique id looked up on line 185, after the conditional rewrite of
lines 180-183. -/
def lookupUid (serial : String → String) (unique_id : String)
    (description : DeconzBinarySensorDescription) : String :=
  if description.old_unique_id_suffix ≠ "" then
    serial unique_id ++ "-" ++ description.old_unique_id_suffix
  else unique_id

/-- The runtime-type filter of the loop guard (lines 204-206): a description
applies when it has no `instance_check` or the sensor is an instance of it. -/
def passesInstanceCheck (s : PydeconzSensor)
    (d : DeconzBinarySensorDescription) : Bool :=
  match d.instance_check with
  | some tt => isinstance s tt
  | none => true

/-- Well-formed registry: entity-id handles are distinct and below the
freshness counter. -/
def RegWF (reg : EntityRegistry) : Prop :=
  (reg.entries.map (fun e => e.1)).Nodup ∧ ∀ e ∈ reg.entries, e.1 < reg.next_id

instance (reg : EntityRegistry) : Decidable (RegWF reg) := by
  unfold RegWF; infer_instance

/-- The description-table properties the discovery-handler proofs rely on:
keys are distinct and dash-free, legacy suffixes are dash-free, and no
legacy suffix coincides with another description's key. -/
def KeysSafe (L : List DeconzBinarySensorDescription) : Prop :=
  (L.map (fun d => d.key)).Nodup
  ∧ (∀ d ∈ L, '-' ∉ d.key.data)
  ∧ (∀ e ∈ L, e.old_unique_id_suffix ≠ "" → '-' ∉ e.old_unique_id_suffix.data)
  ∧ (∀ d ∈ L, ∀ e ∈ L, d.key ≠ e.key → e.old_unique_id_suffix ≠ "" →
      e.old_unique_id_suffix ≠ d.key)

instance (L : List DeconzBinarySensorDescription) : Decidable (KeysSafe L) := by
  unfold KeysSafe; infer_instance

/-! ### Concrete inputs used by the witnesses below -/

def sAlarm : PydeconzSensor :=
  { type := SensorType.Alarm, unique_id := "00:11:22-01-0500", alarm := some true }

def sAny : PydeconzSensor :=
  { type := SensorType.OtherSensor, unique_id := "aa:bb",
    tampered := some true, low_battery := some false }

def sFire : PydeconzSensor :=
  { type := SensorType.Fire, unique_id := "ff:01", «on» := some true,
    fire := some false, in_test_mode := some false }

def ePresence : DeconzBinarySensor :=
  ⟨{ type := SensorType.Presence, unique_id := "pp:01",
     presence := some true, dark := some true }, presenceDescription⟩

def eVib : DeconzBinarySensor :=
  ⟨{ type := SensorType.Vibration, unique_id := "vv:01",
     vibration := some true }, vibrationDescription⟩

def regC3 : EntityRegistry := ⟨1, [(0, "00:11:22")]⟩

/-! ### String helper lemmas

The migration compares unique ids of the form `base ++ "-" ++ suffix`; the
lemmas below let distinct dash-free suffixes separate such ids. -/

/-- If `c` occurs in neither prefix, the first occurrence of `c` splits a list
uniquely. -/
theorem eq_of_append_cons_eq {α : Type} {c : α} :
    ∀ (ra rb t₁ t₂ : List α), c ∉ ra → c ∉ rb →
      ra ++ c :: t₁ = rb ++ c :: t₂ → ra = rb := by
  intro ra
  induction ra with
  | nil =>
    intro rb t₁ t₂ _ hb h
    cases rb with
    | nil => rfl
    | cons x rb' =>
      simp only [List.nil_append, List.cons_append, List.cons.injEq] at h
      exact absurd (h.1 ▸ List.mem_cons_self x rb') hb
  | cons a ra' ih =>
    intro rb t₁ t₂ ha hb h
    cases rb with
    | nil =>
      simp only [List.cons_append, List.nil_append, List.cons.injEq] at h
      exact absurd (h.1 ▸ List.mem_cons_self a ra') ha
    | cons x rb' =>
      simp only [List.cons_append, List.cons.injEq] at h
      have h1 : c ∉ ra' := fun hm => ha (List.mem_cons_of_mem a hm)
      have h2 : c ∉ rb' := fun hm => hb (List.mem_cons_of_mem x hm)
      rw [h.1, ih rb' t₁ t₂ h1 h2 h.2]

/-- Ids built by appending `"-"` and a dash-free tag determine the tag. -/
theorem append_dash_inj {A B a b : String} (ha : '-' ∉ a.data) (hb : '-' ∉ b.data)
    (h : A ++ "-" ++ a = B ++ "-" ++ b) : a = b := by
  have h2 : A.data ++ '-' :: a.data = B.data ++ '-' :: b.data := by
    have := congrArg String.data h
    simpa [String.data_append] using this
  have h3 : a.data.reverse ++ '-' :: A.data.reverse
      = b.data.reverse ++ '-' :: B.data.reverse := by
    have := congrArg List.reverse h2
    simpa [List.reverse_append] using this
  have ha' : '-' ∉ a.data.reverse := by simpa using ha
  have hb' : '-' ∉ b.data.reverse := by simpa using hb
  have h4 := eq_of_append_cons_eq _ _ _ _ ha' hb' h3
  apply String.ext
  have := congrArg List.reverse h4
  simpa using this

/-- An id is never equal to itself extended by `"-"` and a tag. -/
theorem self_ne_append_dash (A k : String) : A ≠ A ++ "-" ++ k := by
  intro h
  have hl := congrArg String.length h
  rw [String.length_append, String.length_append] at hl
  have h1 : ("-" : String).length = 1 := rfl
  rw [h1] at hl
  omega

/-! ### Registry lemmas -/



theorem async_get_isSome_iff (reg : EntityRegistry) (u : String) :
    (async_get_entity_id reg u).isSome = true ↔ u ∈ regUids reg := by
  simp [async_get_entity_id, regUids, List.find?_isSome, List.mem_map,
    beq_iff_eq]

theorem regWF_update (reg : EntityRegistry) (eid : Nat) (new : String)
    (h : RegWF reg) : RegWF (async_update_entity reg eid new) := by
  obtain ⟨h1, h2⟩ := h
  have hfst : ∀ e : Nat × String,
      ((if e.1 == eid then (e.1, new) else e) : Nat × String).1 = e.1 := by
    intro e; split <;> rfl
  constructor
  · have hmap : (async_update_entity reg eid new).entries.map (fun e => e.1)
        = reg.entries.map (fun e => e.1) := by
      simp only [async_update_entity, List.map_map]
      exact List.map_congr_left (fun e _ => hfst e)
    rw [hmap]; exact h1
  · intro e he
    simp only [async_update_entity, List.mem_map] at he
    obtain ⟨x, hx, hxe⟩ := he
    have : e.1 = x.1 := by rw [← hxe]; exact hfst x
    rw [this]
    exact h2 x hx

theorem regWF_register (reg : EntityRegistry) (u : String) (h : RegWF reg) :
    RegWF ⟨reg.next_id + 1, reg.entries ++ [(reg.next_id, u)]⟩ := by
  obtain ⟨h1, h2⟩ := h
  constructor
  · simp only [List.map_append, List.map_cons, List.map_nil]
    rw [List.nodup_append]
    refine ⟨h1, List.nodup_singleton _, ?_⟩
    intro a ha hb
    simp only [List.mem_singleton] at hb
    subst hb
    simp only [List.mem_map] at ha
    obtain ⟨x, hx, hxa⟩ := ha
    have := h2 x hx
    omega
  · intro e he
    simp only [List.mem_append, List.mem_singleton] at he
    change e.1 < reg.next_id + 1
    rcases he with he | he
    · have := h2 e he; omega
    · subst he; omega

theorem mem_regUids_update_of_ne (reg : EntityRegistry) (en : Nat × String)
    (lu new u : String) (hk : (reg.entries.map (fun e => e.1)).Nodup)
    (hfind : reg.entries.find? (fun e => e.2 == lu) = some en)
    (hu : u ∈ regUids reg) (hne : u ≠ lu) :
    u ∈ regUids (async_update_entity reg en.1 new) := by
  have hen2 : en.2 = lu := by
    have := List.find?_some hfind
    simpa [beq_iff_eq] using this
  simp only [regUids, List.mem_map] at hu
  obtain ⟨x, hx, hxu⟩ := hu
  have hen : en ∈ reg.entries := List.mem_of_find?_eq_some hfind
  have hxne : x.1 ≠ en.1 := by
    intro heq
    have := List.inj_on_of_nodup_map hk hx hen heq
    rw [this] at hxu
    rw [hen2] at hxu
    exact hne hxu.symm
  have hx' : x ∈ reg.entries.map
      (fun e => if e.1 == en.1 then (e.1, new) else e) := by
    have hmm := List.mem_map_of_mem
      (fun e : Nat × String => if e.1 == en.1 then (e.1, new) else e) hx
    simpa [beq_iff_eq, hxne] using hmm
  rw [← hxu]
  exact List.mem_map_of_mem (fun e => e.2) hx'

theorem new_mem_regUids_update (reg : EntityRegistry) (en : Nat × String)
    (new : String) (hen : en ∈ reg.entries) :
    new ∈ regUids (async_update_entity reg en.1 new) := by
  have hx' : (en.1, new) ∈ reg.entries.map
      (fun e => if e.1 == en.1 then (e.1, new) else e) := by
    have hmm := List.mem_map_of_mem
      (fun e : Nat × String => if e.1 == en.1 then (e.1, new) else e) hen
    simpa using hmm
  exact List.mem_map_of_mem (fun e => e.2) hx'

theorem map_update_id (l : List (Nat × String)) (eid : Nat) (new : String)
    (h : ∀ e ∈ l, e.1 ≠ eid) :
    l.map (fun e => if e.1 == eid then (e.1, new) else e) = l := by
  induction l with
  | nil => rfl
  | cons x t ih =>
    have hx : x.1 ≠ eid := h x (List.mem_cons_self x t)
    have ht : ∀ e ∈ t, e.1 ≠ eid := fun e he => h e (List.mem_cons_of_mem x he)
    simp only [List.map_cons]
    rw [if_neg (by simpa using hx), ih ht]

theorem mem_regUids_update_cases (l : List (Nat × String)) (eid : Nat)
    (new u : String)
    (h : u ∈ (l.map (fun e => if e.1 == eid then (e.1, new) else e)).map
      (fun e => e.2)) :
    u ∈ l.map (fun e => e.2) ∨ u = new := by
  simp only [List.mem_map] at h
  obtain ⟨x, hx, hxu⟩ := h
  obtain ⟨y, hy, hyx⟩ := hx
  by_cases hcase : y.1 = eid
  · right; rw [← hxu, ← hyx]; simp [hcase]
  · left
    have h2 : ((if y.1 == eid then (y.1, new) else y) : Nat × String).2 = y.2 := by
      simp [hcase]
    rw [← hxu, ← hyx, h2]
    exact List.mem_map_of_mem (fun e => e.2) hy

theorem nodup_regUids_update (l : List (Nat × String)) (eid : Nat) (new : String)
    (hk : (l.map (fun e => e.1)).Nodup)
    (hu : (l.map (fun e => e.2)).Nodup)
    (hnew : new ∉ l.map (fun e => e.2)) :
    ((l.map (fun e => if e.1 == eid then (e.1, new) else e)).map
      (fun e => e.2)).Nodup := by
  induction l with
  | nil => simp
  | cons x t ih =>
    simp only [List.map_cons, List.nodup_cons] at hk hu
    obtain ⟨hk1, hk2⟩ := hk
    obtain ⟨hu1, hu2⟩ := hu
    simp only [List.map_cons, List.mem_cons, not_or] at hnew
    obtain ⟨hnew1, hnew2⟩ := hnew
    by_cases hcase : x.1 = eid
    · have hteq : t.map (fun e => if e.1 == eid then (e.1, new) else e) = t := by
        apply map_update_id
        intro e he heq
        apply hk1
        have hm : e.1 ∈ t.map (fun p => p.1) :=
          List.mem_map_of_mem (fun p => p.1) he
        rwa [heq, ← hcase] at hm
      have hfx : ((if x.1 == eid then (x.1, new) else x) : Nat × String)
          = (x.1, new) := by simp [hcase]
      simp only [List.map_cons, hteq, hfx]
      exact List.nodup_cons.mpr ⟨hnew2, hu2⟩
    · have hfx : ((if x.1 == eid then (x.1, new) else x) : Nat × String) = x := by
        simp [hcase]
      simp only [List.map_cons, hfx]
      refine List.nodup_cons.mpr ⟨?_, ih hk2 hu2 hnew2⟩
      intro hmem
      rcases mem_regUids_update_cases t eid new x.2 hmem with h | h
      · exact hu1 h
      · exact hnew1 h.symm

/-- Source `async_update_unique_id` written without the `let` bindings. -/
theorem async_update_unique_id_eq (serial : String → String)
    (reg : EntityRegistry) (X : String) (d : DeconzBinarySensorDescription) :
    async_update_unique_id serial reg X d =
      if (async_get_entity_id reg (newUid X d)).isSome then reg
      else
        match async_get_entity_id reg (lookupUid serial X d) with
        | some entity_id => async_update_entity reg entity_id (newUid X d)
        | none => reg := rfl

theorem migrate_eq_of_mem (serial : String → String) (reg : EntityRegistry)
    (X : String) (d : DeconzBinarySensorDescription)
    (h : newUid X d ∈ regUids reg) :
    async_update_unique_id serial reg X d = reg := by
  have hs : (async_get_entity_id reg (newUid X d)).isSome = true :=
    (async_get_isSome_iff reg _).mpr h
  rw [async_update_unique_id_eq, if_pos hs]

theorem regWF_migrate (serial : String → String) (reg : EntityRegistry)
    (X : String) (d : DeconzBinarySensorDescription) (h : RegWF reg) :
    RegWF (async_update_unique_id serial reg X d) := by
  rw [async_update_unique_id_eq]
  split
  · exact h
  · split
    · exact regWF_update _ _ _ h
    · exact h

theorem mem_regUids_migrate (serial : String → String) (reg : EntityRegistry)
    (X : String) (d : DeconzBinarySensorDescription) (u : String)
    (hwf : RegWF reg) (hu : u ∈ regUids reg)
    (hne : u ≠ lookupUid serial X d) :
    u ∈ regUids (async_update_unique_id serial reg X d) := by
  rw [async_update_unique_id_eq]
  split
  · exact hu
  · split
    · next eid heq =>
      rw [async_get_entity_id] at heq
      obtain ⟨en, hfind, heid⟩ := Option.map_eq_some'.mp heq
      rw [← heid]
      exact mem_regUids_update_of_ne reg en _ _ u hwf.1 hfind hu hne
    · exact hu

theorem uidsNodup_migrate (serial : String → String) (reg : EntityRegistry)
    (X : String) (d : DeconzBinarySensorDescription)
    (hwf : RegWF reg) (hnd : (regUids reg).Nodup) :
    (regUids (async_update_unique_id serial reg X d)).Nodup := by
  rw [async_update_unique_id_eq]
  split
  · exact hnd
  · next hnot =>
    have hnew : newUid X d ∉ regUids reg := by
      intro hmem
      exact hnot ((async_get_isSome_iff reg _).mpr hmem)
    split
    · next eid heq =>
      rw [async_get_entity_id] at heq
      obtain ⟨en, hfind, heid⟩ := Option.map_eq_some'.mp heq
      rw [← heid]
      exact nodup_regUids_update reg.entries en.1 _ hwf.1 hnd hnew
    · exact hnd

/-! ### `async_add_entities` lemmas -/

theorem regWF_add_entities (st : SetupState) (ent : DeconzBinarySensor)
    (h : RegWF st.reg) : RegWF (async_add_entities st ent).reg := by
  by_cases hany : (st.entities.any (fun e => e.unique_id == ent.unique_id)) = true
  · simpa [async_add_entities, hany] using h
  · rw [Bool.not_eq_true] at hany
    by_cases hs : (async_get_entity_id st.reg ent.unique_id).isSome = true
    · simpa [async_add_entities, hany, hs] using h
    · rw [Bool.not_eq_true] at hs
      simpa [async_add_entities, hany, hs] using
        regWF_register st.reg ent.unique_id h

theorem mem_regUids_add_entities (st : SetupState) (ent : DeconzBinarySensor)
    (u : String) (hu : u ∈ regUids st.reg) :
    u ∈ regUids (async_add_entities st ent).reg := by
  by_cases hany : (st.entities.any (fun e => e.unique_id == ent.unique_id)) = true
  · simpa [async_add_entities, hany] using hu
  · rw [Bool.not_eq_true] at hany
    by_cases hs : (async_get_entity_id st.reg ent.unique_id).isSome = true
    · simpa [async_add_entities, hany, hs] using hu
    · rw [Bool.not_eq_true] at hs
      simp only [regUids] at hu
      have hre : (async_add_entities st ent).reg.entries
          = st.reg.entries ++ [(st.reg.next_id, ent.unique_id)] := by
        simp [async_add_entities, hany, hs]
      rw [regUids, hre, List.map_append]
      exact List.mem_append_left _ hu

theorem uid_mem_regUids_add_entities (st : SetupState) (ent : DeconzBinarySensor)
    (hany : (st.entities.any (fun e => e.unique_id == ent.unique_id)) = false) :
    ent.unique_id ∈ regUids (async_add_entities st ent).reg := by
  by_cases hs : (async_get_entity_id st.reg ent.unique_id).isSome = true
  · simpa [async_add_entities, hany, hs] using
      (async_get_isSome_iff st.reg ent.unique_id).mp hs
  · rw [Bool.not_eq_true] at hs
    have hre : (async_add_entities st ent).reg.entries
        = st.reg.entries ++ [(st.reg.next_id, ent.unique_id)] := by
      simp [async_add_entities, hany, hs]
    rw [regUids, hre, List.map_append]
    exact List.mem_append_right _ (by simp)

theorem uidsNodup_add_entities (st : SetupState) (ent : DeconzBinarySensor)
    (hnd : (regUids st.reg).Nodup) :
    (regUids (async_add_entities st ent).reg).Nodup := by
  by_cases hany : (st.entities.any (fun e => e.unique_id == ent.unique_id)) = true
  · simpa [async_add_entities, hany] using hnd
  · rw [Bool.not_eq_true] at hany
    by_cases hs : (async_get_entity_id st.reg ent.unique_id).isSome = true
    · simpa [async_add_entities, hany, hs] using hnd
    · rw [Bool.not_eq_true] at hs
      have hnotmem : ent.unique_id ∉ regUids st.reg := by
        intro hmem
        have := (async_get_isSome_iff st.reg ent.unique_id).mpr hmem
        rw [this] at hs
        exact absurd hs (by decide)
      simp only [regUids] at hnd hnotmem
      have hre : (async_add_entities st ent).reg.entries
          = st.reg.entries ++ [(st.reg.next_id, ent.unique_id)] := by
        simp [async_add_entities, hany, hs]
      rw [regUids, hre, List.map_append, List.nodup_append]
      refine ⟨hnd, by simp, ?_⟩
      intro a ha hb
      simp only [List.map_cons, List.map_nil, List.mem_singleton] at hb
      subst hb
      exact hnotmem ha

theorem entities_add_entities (st : SetupState) (ent : DeconzBinarySensor)
    (hany : (st.entities.any (fun e => e.unique_id == ent.unique_id)) = false) :
    (async_add_entities st ent).entities = st.entities ++ [ent] := by
  simp [async_add_entities, hany]

theorem entities_add_entities_sub (st : SetupState) (ent x : DeconzBinarySensor)
    (hx : x ∈ (async_add_entities st ent).entities) :
    x ∈ st.entities ∨ x = ent := by
  unfold async_add_entities at hx
  split at hx
  · exact Or.inl hx
  · by_cases hs : (async_get_entity_id st.reg ent.unique_id).isSome = true
    · simp only [hs, if_true, List.mem_append, List.mem_singleton] at hx
      exact hx
    · rw [Bool.not_eq_true] at hs
      simp only [hs, List.mem_append, List.mem_singleton] at hx
      exact hx

/-! ### Safety conditions on a description table -/



theorem keysSafe_ENTITY_DESCRIPTIONS : KeysSafe ENTITY_DESCRIPTIONS := by decide

theorem KeysSafe.tail {d : DeconzBinarySensorDescription}
    {t : List DeconzBinarySensorDescription} (h : KeysSafe (d :: t)) :
    KeysSafe t := by
  obtain ⟨h1, h2, h3, h4⟩ := h
  refine ⟨(List.nodup_cons.mp (by simpa using h1)).2, ?_, ?_, ?_⟩
  · exact fun e he => h2 e (List.mem_cons_of_mem d he)
  · exact fun e he => h3 e (List.mem_cons_of_mem d he)
  · exact fun a ha e he => h4 a (List.mem_cons_of_mem d ha) e (List.mem_cons_of_mem d he)

theorem lookupUid_ne_newUid {L : List DeconzBinarySensorDescription}
    (hsafe : KeysSafe L) (serial : String → String) (X : String)
    {d e : DeconzBinarySensorDescription} (hd : d ∈ L) (he : e ∈ L)
    (hne : d.key ≠ e.key) : lookupUid serial X e ≠ newUid X d := by
  obtain ⟨hnd, hdf, hsdf, hcross⟩ := hsafe
  unfold lookupUid newUid
  split
  · next hsuf =>
    intro heq
    have := append_dash_inj (hsdf e he hsuf) (hdf d hd) heq
    exact hcross d hd e he hne hsuf this
  · exact self_ne_append_dash X d.key

theorem newUid_ne_newUid {L : List DeconzBinarySensorDescription}
    (hsafe : KeysSafe L) (X : String)
    {d e : DeconzBinarySensorDescription} (hd : d ∈ L) (he : e ∈ L)
    (hne : d.key ≠ e.key) : newUid X d ≠ newUid X e := by
  intro heq
  exact hne (append_dash_inj (hsafe.2.1 d hd) (hsafe.2.1 e he) heq)

/-! ### Discovery-handler step lemmas -/

theorem mk_unique_id (s : PydeconzSensor) (d : DeconzBinarySensorDescription) :
    (DeconzBinarySensor.mk s d).unique_id = newUid s.unique_id d := rfl

theorem step_skip (serial : String → String) (s : PydeconzSensor)
    (st : SetupState) (d : DeconzBinarySensorDescription)
    (h : shouldSkip s d = true) : addSensorStep serial s st d = st := by
  simp [addSensorStep, h]

theorem regWF_step (serial : String → String) (s : PydeconzSensor)
    (st : SetupState) (d : DeconzBinarySensorDescription)
    (hwf : RegWF st.reg) : RegWF (addSensorStep serial s st d).reg := by
  by_cases h : shouldSkip s d = true
  · rw [step_skip serial s st d h]; exact hwf
  · rw [Bool.not_eq_true] at h
    simp only [addSensorStep, h, Bool.false_eq_true, if_false]
    exact regWF_add_entities _ _ (regWF_migrate serial st.reg s.unique_id d hwf)

theorem uidsNodup_step (serial : String → String) (s : PydeconzSensor)
    (st : SetupState) (d : DeconzBinarySensorDescription)
    (hwf : RegWF st.reg) (hnd : (regUids st.reg).Nodup) :
    (regUids (addSensorStep serial s st d).reg).Nodup := by
  by_cases h : shouldSkip s d = true
  · rw [step_skip serial s st d h]; exact hnd
  · rw [Bool.not_eq_true] at h
    simp only [addSensorStep, h, Bool.false_eq_true, if_false]
    exact uidsNodup_add_entities _ _
      (uidsNodup_migrate serial st.reg s.unique_id d hwf hnd)

theorem mem_regUids_step (serial : String → String) (s : PydeconzSensor)
    (st : SetupState) (d : DeconzBinarySensorDescription) (u : String)
    (hwf : RegWF st.reg) (hu : u ∈ regUids st.reg)
    (hne : u ≠ lookupUid serial s.unique_id d) :
    u ∈ regUids (addSensorStep serial s st d).reg := by
  by_cases h : shouldSkip s d = true
  · rw [step_skip serial s st d h]; exact hu
  · rw [Bool.not_eq_true] at h
    simp only [addSensorStep, h, Bool.false_eq_true, if_false]
    exact mem_regUids_add_entities _ _ _
      (mem_regUids_migrate serial st.reg s.unique_id d u hwf hu hne)

theorem step_entities_sub (serial : String → String) (s : PydeconzSensor)
    (st : SetupState) (d : DeconzBinarySensorDescription)
    (x : DeconzBinarySensor) (hx : x ∈ (addSensorStep serial s st d).entities) :
    x ∈ st.entities ∨ x = DeconzBinarySensor.mk s d := by
  by_cases h : shouldSkip s d = true
  · rw [step_skip serial s st d h] at hx; exact Or.inl hx
  · rw [Bool.not_eq_true] at h
    simp only [addSensorStep, h, Bool.false_eq_true, if_false] at hx
    exact entities_add_entities_sub
      { reg := async_update_unique_id serial st.reg s.unique_id d,
        entities := st.entities } _ _ hx

/-! ### Discovery-handler fold lemmas -/

theorem regWF_foldl (serial : String → String) (s : PydeconzSensor) :
    ∀ (L : List DeconzBinarySensorDescription) (st : SetupState),
      RegWF st.reg → RegWF ((L.foldl (addSensorStep serial s) st).reg) := by
  intro L
  induction L with
  | nil => exact fun st h => h
  | cons d t ih =>
    intro st h
    rw [List.foldl_cons]
    exact ih _ (regWF_step serial s st d h)

theorem uidsNodup_foldl (serial : String → String) (s : PydeconzSensor) :
    ∀ (L : List DeconzBinarySensorDescription) (st : SetupState),
      RegWF st.reg → (regUids st.reg).Nodup →
      (regUids ((L.foldl (addSensorStep serial s) st).reg)).Nodup := by
  intro L
  induction L with
  | nil => exact fun st _ h => h
  | cons d t ih =>
    intro st hwf hnd
    rw [List.foldl_cons]
    exact ih _ (regWF_step serial s st d hwf) (uidsNodup_step serial s st d hwf hnd)

theorem mem_regUids_foldl (serial : String → String) (s : PydeconzSensor) :
    ∀ (L : List DeconzBinarySensorDescription) (st : SetupState) (u : String),
      RegWF st.reg → u ∈ regUids st.reg →
      (∀ d ∈ L, u ≠ lookupUid serial s.unique_id d) →
      u ∈ regUids ((L.foldl (addSensorStep serial s) st).reg) := by
  intro L
  induction L with
  | nil => exact fun st u _ h _ => h
  | cons d t ih =>
    intro st u hwf hu hne
    rw [List.foldl_cons]
    exact ih _ u (regWF_step serial s st d hwf)
      (mem_regUids_step serial s st d u hwf hu (hne d (List.mem_cons_self d t)))
      (fun e he => hne e (List.mem_cons_of_mem d he))

theorem entities_foldl (serial : String → String) (s : PydeconzSensor) :
    ∀ (L : List DeconzBinarySensorDescription) (st : SetupState),
      (∀ d ∈ L, '-' ∉ d.key.data) →
      (L.map (fun d => d.key)).Nodup →
      (∀ e ∈ st.entities, ∀ d ∈ L, shouldSkip s d = false →
        e.unique_id ≠ newUid s.unique_id d) →
      (L.foldl (addSensorStep serial s) st).entities
        = st.entities
          ++ (L.filter (fun d => !(shouldSkip s d))).map
              (fun d => DeconzBinarySensor.mk s d) := by
  intro L
  induction L with
  | nil => intro st _ _ _; simp
  | cons d t ih =>
    intro st hdf hnd hpre
    have hnd2 : d.key ∉ t.map (fun x => x.key) ∧ (t.map (fun x => x.key)).Nodup := by
      rw [List.map_cons, List.nodup_cons] at hnd
      exact hnd
    rw [List.foldl_cons]
    by_cases hskip : shouldSkip s d = true
    · rw [step_skip serial s st d hskip]
      rw [ih st (fun e he => hdf e (List.mem_cons_of_mem d he)) hnd2.2
        (fun e he d2 hd2 hs2 => hpre e he d2 (List.mem_cons_of_mem d hd2) hs2)]
      simp [List.filter_cons, hskip]
    · rw [Bool.not_eq_true] at hskip
      have hany : (st.entities.any
          (fun e => e.unique_id == (DeconzBinarySensor.mk s d).unique_id)) = false := by
        rw [List.any_eq_false]
        intro e he
        simp only [beq_iff_eq, mk_unique_id]
        exact hpre e he d (List.mem_cons_self d t) hskip
      have hent : (addSensorStep serial s st d).entities
          = st.entities ++ [DeconzBinarySensor.mk s d] := by
        simp only [addSensorStep, hskip, Bool.false_eq_true, if_false]
        exact entities_add_entities
          { reg := async_update_unique_id serial st.reg s.unique_id d,
            entities := st.entities } _ hany
      have hpre2 : ∀ e ∈ (addSensorStep serial s st d).entities, ∀ d2 ∈ t,
          shouldSkip s d2 = false → e.unique_id ≠ newUid s.unique_id d2 := by
        intro e he d2 hd2 hs2
        rw [hent] at he
        rcases List.mem_append.mp he with he | he
        · exact hpre e he d2 (List.mem_cons_of_mem d hd2) hs2
        · rw [List.mem_singleton] at he
          subst he
          rw [mk_unique_id]
          intro heq
          have hkey := append_dash_inj (hdf d (List.mem_cons_self d t))
            (hdf d2 (List.mem_cons_of_mem d hd2)) heq
          exact hnd2.1 (hkey ▸ List.mem_map_of_mem (fun x => x.key) hd2)
      rw [ih (addSensorStep serial s st d)
        (fun e he => hdf e (List.mem_cons_of_mem d he)) hnd2.2 hpre2]
      rw [hent]
      have hfil : (d :: t).filter (fun x => !(shouldSkip s x))
          = d :: t.filter (fun x => !(shouldSkip s x)) := by
        simp [List.filter_cons, hskip]
      rw [hfil, List.map_cons, List.append_assoc, List.singleton_append]

theorem newUid_mem_regUids_foldl (serial : String → String) (s : PydeconzSensor) :
    ∀ (L : List DeconzBinarySensorDescription) (st : SetupState),
      KeysSafe L →
      (∀ e ∈ st.entities, ∀ d ∈ L, shouldSkip s d = false →
        e.unique_id ≠ newUid s.unique_id d) →
      RegWF st.reg →
      ∀ d ∈ L, shouldSkip s d = false →
        newUid s.unique_id d
          ∈ regUids ((L.foldl (addSensorStep serial s) st).reg) := by
  intro L
  induction L with
  | nil => intro st _ _ _ d hd; exact absurd hd (List.not_mem_nil d)
  | cons e t ih =>
    intro st hsafe hpre hwf d hd hsk
    have hkey1 : e.key ∉ t.map (fun x => x.key) := by
      have h1 := hsafe.1
      rw [List.map_cons, List.nodup_cons] at h1
      exact h1.1
    rw [List.foldl_cons]
    rcases List.mem_cons.mp hd with heq | hdt
    · subst heq
      have hany : (st.entities.any
          (fun e2 => e2.unique_id == (DeconzBinarySensor.mk s d).unique_id)) = false := by
        rw [List.any_eq_false]
        intro e2 he2
        simp only [beq_iff_eq, mk_unique_id]
        exact hpre e2 he2 d (List.mem_cons_self d t) hsk
      have hmem : newUid s.unique_id d
          ∈ regUids (addSensorStep serial s st d).reg := by
        simp only [addSensorStep, hsk, Bool.false_eq_true, if_false]
        exact uid_mem_regUids_add_entities _ _ hany
      apply mem_regUids_foldl serial s t _ _ (regWF_step serial s st d hwf) hmem
      intro d2 hd2
      have hkne : d.key ≠ d2.key := by
        intro hkeq
        exact hkey1 (hkeq ▸ List.mem_map_of_mem (fun x => x.key) hd2)
      exact Ne.symm (lookupUid_ne_newUid hsafe serial s.unique_id
        (List.mem_cons_self d t) (List.mem_cons_of_mem d hd2) hkne)
    · apply ih (addSensorStep serial s st e) hsafe.tail ?_
        (regWF_step serial s st e hwf) d hdt hsk
      intro e2 he2 d2 hd2 hs2
      rcases step_entities_sub serial s st e e2 he2 with h | h
      · exact hpre e2 h d2 (List.mem_cons_of_mem e hd2) hs2
      · subst h
        rw [mk_unique_id]
        have hkne : e.key ≠ d2.key := by
          intro hkeq
          exact hkey1 (hkeq ▸ List.mem_map_of_mem (fun x => x.key) hd2)
        exact newUid_ne_newUid hsafe s.unique_id (List.mem_cons_self e t)
          (List.mem_cons_of_mem e hd2) hkne

theorem foldl_absorbed (serial : String → String) (s : PydeconzSensor) :
    ∀ (L : List DeconzBinarySensorDescription) (st : SetupState),
      (∀ d ∈ L, shouldSkip s d = false →
        (st.entities.any (fun e2 => e2.unique_id == newUid s.unique_id d)) = true
        ∧ newUid s.unique_id d ∈ regUids st.reg) →
      L.foldl (addSensorStep serial s) st = st := by
  intro L
  induction L with
  | nil => intro st _; rfl
  | cons d t ih =>
    intro st hdone
    rw [List.foldl_cons]
    have hstep : addSensorStep serial s st d = st := by
      by_cases hsk : shouldSkip s d = true
      · exact step_skip serial s st d hsk
      · rw [Bool.not_eq_true] at hsk
        obtain ⟨hany, hmem⟩ := hdone d (List.mem_cons_self d t) hsk
        have hmig : async_update_unique_id serial st.reg s.unique_id d = st.reg :=
          migrate_eq_of_mem serial st.reg s.unique_id d hmem
        have hany2 : (st.entities.any
            (fun e2 => e2.unique_id == (DeconzBinarySensor.mk s d).unique_id)) = true :=
          hany
        simp only [addSensorStep, hsk, Bool.false_eq_true, if_false, hmig]
        simp [async_add_entities, hany2]
    rw [hstep]
    exact ih st (fun d2 hd2 => hdone d2 (List.mem_cons_of_mem d hd2))

theorem filter_key_eq_singleton :
    ∀ {L : List DeconzBinarySensorDescription},
      (L.map (fun x => x.key)).Nodup →
      ∀ {d : DeconzBinarySensorDescription}, d ∈ L →
      L.filter (fun x => x.key == d.key) = [d] := by
  intro L
  induction L with
  | nil => intro _ d hd; exact absurd hd (List.not_mem_nil d)
  | cons e t ih =>
    intro hnd d hd
    have hnd2 : e.key ∉ t.map (fun x => x.key) ∧ (t.map (fun x => x.key)).Nodup := by
      rw [List.map_cons, List.nodup_cons] at hnd
      exact hnd
    rcases List.mem_cons.mp hd with heq | hdt
    · subst heq
      rw [List.filter_cons_of_pos (by simp)]
      have hnil : t.filter (fun x => x.key == d.key) = [] := by
        rw [List.filter_eq_nil_iff]
        intro x hx
        simp only [beq_iff_eq]
        intro hkeq
        exact hnd2.1 (hkeq ▸ List.mem_map_of_mem (fun y => y.key) hx)
      rw [hnil]
    · have hne : e.key ≠ d.key := by
        intro hkeq
        exact hnd2.1 (hkeq ▸ List.mem_map_of_mem (fun x => x.key) hdt)
      rw [List.filter_cons_of_neg (by simpa using hne)]
      exact ih hnd2.2 hdt

/-! ### Handler-level lemmas -/

theorem async_add_sensor_entities (serial : String → String)
    (s : PydeconzSensor) (reg0 : EntityRegistry) :
    (async_add_sensor serial s ⟨reg0, []⟩).entities
      = (ENTITY_DESCRIPTIONS.filter (fun d => !(shouldSkip s d))).map
          (fun d => DeconzBinarySensor.mk s d) := by
  unfold async_add_sensor
  rw [entities_foldl serial s ENTITY_DESCRIPTIONS ⟨reg0, []⟩
    keysSafe_ENTITY_DESCRIPTIONS.2.1 keysSafe_ENTITY_DESCRIPTIONS.1
    (by intro e he; exact absurd he (List.not_mem_nil e))]
  rw [List.nil_append]

theorem handler_filter_key (serial : String → String) (s : PydeconzSensor)
    (reg0 : EntityRegistry) (d : DeconzBinarySensorDescription)
    (hd : d ∈ ENTITY_DESCRIPTIONS) (hsk : shouldSkip s d = false) :
    (async_add_sensor serial s ⟨reg0, []⟩).entities.filter
        (fun e => e.entity_description.key == d.key)
      = [DeconzBinarySensor.mk s d] := by
  rw [async_add_sensor_entities, List.filter_map]
  have hsub : ((ENTITY_DESCRIPTIONS.filter (fun x => !(shouldSkip s x))).map
      (fun x => x.key)).Nodup :=
    List.Nodup.sublist (List.Sublist.map _ (List.filter_sublist _))
      keysSafe_ENTITY_DESCRIPTIONS.1
  have hdmem : d ∈ ENTITY_DESCRIPTIONS.filter (fun x => !(shouldSkip s x)) :=
    List.mem_filter.mpr ⟨hd, by simp [hsk]⟩
  have hsing := filter_key_eq_singleton hsub hdmem
  rw [show ((fun e : DeconzBinarySensor => e.entity_description.key == d.key)
      ∘ (fun x => DeconzBinarySensor.mk s x)) = (fun x => x.key == d.key) from rfl]
  rw [hsing]
  rfl

theorem handler_no_key (serial : String → String) (s : PydeconzSensor)
    (reg0 : EntityRegistry) (d : DeconzBinarySensorDescription)
    (hd : d ∈ ENTITY_DESCRIPTIONS) (hsk : shouldSkip s d = true) :
    (async_add_sensor serial s ⟨reg0, []⟩).entities.filter
        (fun e => e.entity_description.key == d.key) = [] := by
  rw [async_add_sensor_entities, List.filter_map]
  rw [show ((fun e : DeconzBinarySensor => e.entity_description.key == d.key)
      ∘ (fun x => DeconzBinarySensor.mk s x)) = (fun x => x.key == d.key) from rfl]
  have hnil : (ENTITY_DESCRIPTIONS.filter (fun x => !(shouldSkip s x))).filter
      (fun x => x.key == d.key) = [] := by
    rw [List.filter_eq_nil_iff]
    intro x hx
    simp only [beq_iff_eq]
    intro hkeq
    have hxmem := List.mem_filter.mp hx
    have hxd : x = d :=
      List.inj_on_of_nodup_map keysSafe_ENTITY_DESCRIPTIONS.1 hxmem.1 hd hkeq
    rw [hxd] at hxmem
    rw [hsk] at hxmem
    simp at hxmem
  rw [hnil]
  rfl

theorem find?_first {α : Type} (p : α → Bool) :
    ∀ (l1 : List α) (a : α) (l2 : List α),
      (∀ x ∈ l1, ¬ p x = true) → p a = true →
      (l1 ++ a :: l2).find? p = some a := by
  intro l1
  induction l1 with
  | nil =>
    intro a l2 _ hp
    rw [List.nil_append]
    exact List.find?_cons_of_pos l2 hp
  | cons x t ih =>
    intro a l2 hn hp
    rw [List.cons_append]
    rw [List.find?_cons_of_neg]
    · exact ih a l2 (fun y hy => hn y (List.mem_cons_of_mem x hy)) hp
    · exact hn x (List.mem_cons_self x t)

/-- Claim C3 (amended): the migration derives the new identifier by appending the
description key; if an entity is registered under it nothing is done; otherwise a
legacy identifier is computed (the serial with the legacy suffix appended when the
description specifies one, and the bare base identifier otherwise), and an entity
registered under the legacy identifier is renamed to the new identifier; if none
exists, the registry is left unchanged and no error arises. -/
theorem migration_spec (serial : String → String) (reg : EntityRegistry)
    (X : String) (d : DeconzBinarySensorDescription) (hwf : RegWF reg) :
    (newUid X d ∈ regUids reg → async_update_unique_id serial reg X d = reg)
    ∧ (newUid X d ∉ regUids reg → lookupUid serial X d ∉ regUids reg →
        async_update_unique_id serial reg X d = reg)
    ∧ (newUid X d ∉ regUids reg →
        ∀ l1 eid l2, reg.entries = l1 ++ (eid, lookupUid serial X d) :: l2 →
          (∀ p2 ∈ l1, p2.2 ≠ lookupUid serial X d) →
          (async_update_unique_id serial reg X d).entries
              = l1 ++ (eid, newUid X d) :: l2
            ∧ (async_update_unique_id serial reg X d).next_id = reg.next_id) := by
  refine ⟨migrate_eq_of_mem serial reg X d, ?_, ?_⟩
  · intro hnew hlu
    rw [async_update_unique_id_eq,
      if_neg (fun hc => hnew ((async_get_isSome_iff reg _).mp hc))]
    have hnone : async_get_entity_id reg (lookupUid serial X d) = none := by
      rcases hg : async_get_entity_id reg (lookupUid serial X d) with _ | v
      · rfl
      · exact absurd ((async_get_isSome_iff reg _).mp (by rw [hg]; rfl)) hlu
    rw [hnone]
  · intro hnew l1 eid l2 hdec hfirst
    have hfind : reg.entries.find? (fun e => e.2 == lookupUid serial X d)
        = some (eid, lookupUid serial X d) := by
      rw [hdec]
      apply find?_first
      · intro x hx
        simp only [beq_iff_eq]
        exact hfirst x hx
      · simp
    have hget : async_get_entity_id reg (lookupUid serial X d) = some eid := by
      rw [async_get_entity_id, hfind]
      rfl
    have hks := hwf.1
    rw [hdec, List.map_append, List.map_cons, List.nodup_append] at hks
    obtain ⟨hk1, hk2, hdisj⟩ := hks
    have heid1 : ∀ p2 ∈ l1, p2.1 ≠ eid := by
      intro p2 hp2 heq
      apply hdisj (List.mem_map_of_mem (fun e => e.1) hp2)
      rw [heq]
      exact List.mem_cons_self _ _
    have heid2 : ∀ p2 ∈ l2, p2.1 ≠ eid := by
      intro p2 hp2 heq
      have h3 : eid ∉ l2.map (fun e => e.1) := (List.nodup_cons.mp hk2).1
      exact h3 (heq ▸ List.mem_map_of_mem (fun e => e.1) hp2)
    rw [async_update_unique_id_eq,
      if_neg (fun hc => hnew ((async_get_isSome_iff reg _).mp hc)), hget]
    constructor
    · show (async_update_entity reg eid (newUid X d)).entries
        = l1 ++ (eid, newUid X d) :: l2
      unfold async_update_entity
      simp only
      rw [hdec, List.map_append, List.map_cons]
      rw [map_update_id l1 eid _ heid1, map_update_id l2 eid _ heid2]
      simp
    · rfl

theorem passesInstanceCheck_shouldSkip (s : PydeconzSensor)
    (d : DeconzBinarySensorDescription) :
    shouldSkip s d = (!(passesInstanceCheck s d) || (d.value_fn s).isNone) := by
  unfold shouldSkip passesInstanceCheck
  cases d.instance_check <;> rfl

theorem shouldSkip_eq_false_of (s : PydeconzSensor)
    (d : DeconzBinarySensorDescription)
    (hfilter : passesInstanceCheck s d = true)
    (hval : (d.value_fn s).isSome = true) : shouldSkip s d = false := by
  rw [passesInstanceCheck_shouldSkip, hfilter]
  cases hv : d.value_fn s with
  | none => rw [hv] at hval; simp at hval
  | some b => simp

theorem async_add_sensor_done (serial : String → String) (s : PydeconzSensor)
    (reg0 : EntityRegistry) (hwf : RegWF reg0) :
    ∀ d ∈ ENTITY_DESCRIPTIONS, shouldSkip s d = false →
      ((async_add_sensor serial s ⟨reg0, []⟩).entities.any
        (fun e2 => e2.unique_id == newUid s.unique_id d)) = true
      ∧ newUid s.unique_id d
          ∈ regUids (async_add_sensor serial s ⟨reg0, []⟩).reg := by
  intro d hd hsk
  constructor
  · rw [List.any_eq_true]
    refine ⟨DeconzBinarySensor.mk s d, ?_, by simp [mk_unique_id]⟩
    rw [async_add_sensor_entities]
    exact List.mem_map_of_mem _ (List.mem_filter.mpr ⟨hd, by simp [hsk]⟩)
  · show newUid s.unique_id d
      ∈ regUids ((ENTITY_DESCRIPTIONS.foldl (addSensorStep serial s) ⟨reg0, []⟩).reg)
    exact newUid_mem_regUids_foldl serial s ENTITY_DESCRIPTIONS ⟨reg0, []⟩
      keysSafe_ENTITY_DESCRIPTIONS
      (by intro e he; exact absurd he (List.not_mem_nil e)) hwf d hd hsk

/-- Claim C2: the identifier migration is idempotent: running the discovery handler a
second time on the same sensor leaves the setup state (entity registry and platform
entities) unchanged and never produces a duplicate identifier, because the first run
already registered an entity under each new suffixed identifier. -/
theorem discovery_idempotent (serial : String → String) (s : PydeconzSensor)
    (reg0 : EntityRegistry) (hwf : RegWF reg0) (hnd : (regUids reg0).Nodup) :
    async_add_sensor serial s (async_add_sensor serial s ⟨reg0, []⟩)
        = async_add_sensor serial s ⟨reg0, []⟩
    ∧ (regUids (async_add_sensor serial s
        (async_add_sensor serial s ⟨reg0, []⟩)).reg).Nodup := by
  have habs : async_add_sensor serial s (async_add_sensor serial s ⟨reg0, []⟩)
      = async_add_sensor serial s ⟨reg0, []⟩ := by
    show ENTITY_DESCRIPTIONS.foldl (addSensorStep serial s)
        (async_add_sensor serial s ⟨reg0, []⟩)
      = async_add_sensor serial s ⟨reg0, []⟩
    apply foldl_absorbed
    intro d hd hsk
    exact async_add_sensor_done serial s reg0 hwf d hd hsk
  refine ⟨habs, ?_⟩
  rw [habs]
  show (regUids ((ENTITY_DESCRIPTIONS.foldl
    (addSensorStep serial s) ⟨reg0, []⟩).reg)).Nodup
  exact uidsNodup_foldl serial s ENTITY_DESCRIPTIONS ⟨reg0, []⟩ hwf hnd

/-- Claim C1: for every description in the table, when the discovery handler runs on
a gateway sensor that passes the runtime-type filter (or has none) and whose
extraction function returns a non-null value, exactly one wrapper entity is created
for that (sensor, description) pair, and it carries the description and hence its
device classification. -/
theorem handler_creates_exactly_one_entity (serial : String → String)
    (s : PydeconzSensor) (reg0 : EntityRegistry)
    (d : DeconzBinarySensorDescription) (hd : d ∈ ENTITY_DESCRIPTIONS)
    (hfilter : passesInstanceCheck s d = true)
    (hval : (d.value_fn s).isSome = true) :
    ((async_add_sensor serial s ⟨reg0, []⟩).entities.filter
        (fun e => e.entity_description.key == d.key)).length = 1
    ∧ ∀ e ∈ (async_add_sensor serial s ⟨reg0, []⟩).entities,
        e.entity_description.key = d.key →
          e.entity_description.device_class = d.device_class
          ∧ e._device = s := by
  have hsk := shouldSkip_eq_false_of s d hfilter hval
  constructor
  · rw [handler_filter_key serial s reg0 d hd hsk]
    rfl
  · intro e he hekey
    rw [async_add_sensor_entities] at he
    obtain ⟨d2, hd2, hd2e⟩ := List.mem_map.mp he
    have hd2mem := (List.mem_filter.mp hd2).1
    have hkey2 : d2.key = d.key := by
      rw [← hd2e] at hekey
      exact hekey
    have hd2d : d2 = d :=
      List.inj_on_of_nodup_map keysSafe_ENTITY_DESCRIPTIONS.1 hd2mem hd hkey2
    rw [← hd2e, hd2d]
    exact ⟨rfl, rfl⟩

theorem foldl_filter_of_id {α β : Type} (f : β → α → β) (p : α → Bool) :
    ∀ (l : List α) (b : β),
      (∀ a ∈ l, p a = false → ∀ b2, f b2 a = b2) →
      l.foldl f b = (l.filter p).foldl f b := by
  intro l
  induction l with
  | nil => intro b _; rfl
  | cons a t ih =>
    intro b h
    by_cases hp : p a = true
    · rw [List.foldl_cons, List.filter_cons_of_pos hp, List.foldl_cons]
      exact ih (f b a) (fun a2 ha2 => h a2 (List.mem_cons_of_mem a ha2))
    · rw [Bool.not_eq_true] at hp
      rw [List.foldl_cons, List.filter_cons_of_neg (by simp [hp]),
        h a (List.mem_cons_self a t) hp b]
      exact ih b (fun a2 ha2 => h a2 (List.mem_cons_of_mem a ha2))

/-- Claim C4: a description whose extraction function returns null on a sensor
creates no wrapper entity, performs no migration and raises no error: its loop step
is the identity, no entity with its key appears, and the handler equals the fold
over the remaining descriptions. -/
theorem null_extraction_suppresses (serial : String → String)
    (s : PydeconzSensor) (reg0 : EntityRegistry) (st : SetupState)
    (d : DeconzBinarySensorDescription) (hd : d ∈ ENTITY_DESCRIPTIONS)
    (hnull : d.value_fn s = none) :
    addSensorStep serial s st d = st
    ∧ (async_add_sensor serial s ⟨reg0, []⟩).entities.filter
        (fun e => e.entity_description.key == d.key) = []
    ∧ async_add_sensor serial s st
        = (ENTITY_DESCRIPTIONS.filter (fun d2 => !(d2.key == d.key))).foldl
            (addSensorStep serial s) st := by
  have hsk : shouldSkip s d = true := by
    unfold shouldSkip
    rw [hnull]
    simp
  refine ⟨step_skip serial s st d hsk, handler_no_key serial s reg0 d hd hsk, ?_⟩
  show ENTITY_DESCRIPTIONS.foldl (addSensorStep serial s) st
    = (ENTITY_DESCRIPTIONS.filter (fun d2 => !(d2.key == d.key))).foldl
        (addSensorStep serial s) st
  apply foldl_filter_of_id
  intro d2 hd2 hp st2
  have hkeq : d2.key = d.key := by
    have : (d2.key == d.key) = true := by
      cases hb : (d2.key == d.key)
      · rw [hb] at hp; simp at hp
      · rfl
    exact beq_iff_eq.mp this
  have hd2d : d2 = d :=
    List.inj_on_of_nodup_map keysSafe_ENTITY_DESCRIPTIONS.1 hd2 hd hkeq
  rw [hd2d]
  exact step_skip serial s st2 d hsk

/-- Claim C5: the tamper and low-battery descriptions have no runtime-type filter,
so for a sensor of any type whose tampered (resp. low-battery) field is non-null the
handler creates exactly the tamper (resp. low-battery) wrapper entity, with device
classes TAMPER and BATTERY. -/
theorem tamper_low_battery_any_type (serial : String → String)
    (s : PydeconzSensor) (reg0 : EntityRegistry) :
    (s.tampered.isSome = true →
      (async_add_sensor serial s ⟨reg0, []⟩).entities.filter
          (fun e => e.entity_description.key == "tampered")
        = [DeconzBinarySensor.mk s tamperedDescription]
      ∧ tamperedDescription.device_class = some BinarySensorDeviceClass.TAMPER
      ∧ tamperedDescription.instance_check = none)
    ∧ (s.low_battery.isSome = true →
      (async_add_sensor serial s ⟨reg0, []⟩).entities.filter
          (fun e => e.entity_description.key == "low_battery")
        = [DeconzBinarySensor.mk s lowBatteryDescription]
      ∧ lowBatteryDescription.device_class = some BinarySensorDeviceClass.BATTERY
      ∧ lowBatteryDescription.instance_check = none) := by
  constructor
  · intro ht
    refine ⟨?_, rfl, rfl⟩
    have hsk : shouldSkip s tamperedDescription = false :=
      shouldSkip_eq_false_of s tamperedDescription rfl ht
    exact handler_filter_key serial s reg0 tamperedDescription
      (by simp [ENTITY_DESCRIPTIONS]) hsk
  · intro hl
    refine ⟨?_, rfl, rfl⟩
    have hsk : shouldSkip s lowBatteryDescription = false :=
      shouldSkip_eq_false_of s lowBatteryDescription rfl hl
    exact handler_filter_key serial s reg0 lowBatteryDescription
      (by simp [ENTITY_DESCRIPTIONS]) hsk

theorem extra_attrs_unflagged (e : DeconzBinarySensor)
    (hkey : PROVIDES_EXTRA_ATTRIBUTES.contains e.entity_description.key = false) :
    e.extra_state_attributes = [] := by
  unfold DeconzBinarySensor.extra_state_attributes
  rw [if_pos]
  rw [hkey]
  simp

theorem extra_attrs_flagged (e : DeconzBinarySensor)
    (hkey : PROVIDES_EXTRA_ATTRIBUTES.contains e.entity_description.key = true) :
    e.extra_state_attributes
      = (match e._device.«on» with
         | some v => [(ATTR_ON, AttrValue.ofBool v)]
         | none => [])
        ++ (match e._device.internal_temperature with
            | some v => [(ATTR_TEMPERATURE, AttrValue.ofInt v)]
            | none => [])
        ++ (if isinstance e._device SensorType.Presence then
              match e._device.dark with
              | some v => [(ATTR_DARK, AttrValue.ofBool v)]
              | none => []
            else if isinstance e._device SensorType.Vibration then
              [(ATTR_ORIENTATION, optListValue e._device.orientation),
               (ATTR_TILTANGLE, optIntValue e._device.tilt_angle),
               (ATTR_VIBRATIONSTRENGTH, optIntValue e._device.vibration_strength)]
            else []) := by
  unfold DeconzBinarySensor.extra_state_attributes
  rw [if_neg]
  exact fun hc => hc hkey

/-- Claim C6: for a category-flagged wrapper over a presence sensor, the
extra-state-attributes mapping omits the ambient-light (dark) attribute when the
sensor's dark field is null and includes its boolean value when it is non-null. -/
theorem presence_dark_attribute (e : DeconzBinarySensor)
    (hkey : PROVIDES_EXTRA_ATTRIBUTES.contains e.entity_description.key = true)
    (hp : e._device.type = SensorType.Presence) :
    (e._device.dark = none → ∀ v, (ATTR_DARK, v) ∉ e.extra_state_attributes)
    ∧ (∀ b, e._device.dark = some b →
        (ATTR_DARK, AttrValue.ofBool b) ∈ e.extra_state_attributes) := by
  have hinst : isinstance e._device SensorType.Presence = true := by
    unfold isinstance
    rw [hp]
    rfl
  constructor
  · intro hdark v
    rw [extra_attrs_flagged e hkey, if_pos hinst, hdark]
    cases hon : e._device.«on» <;>
      cases htemp : e._device.internal_temperature <;>
        simp [ATTR_DARK, ATTR_ON, ATTR_TEMPERATURE]
  · intro b hdark
    rw [extra_attrs_flagged e hkey, if_pos hinst, hdark]
    simp

/-- Claim C7: for a category-flagged wrapper over a vibration sensor, the
extra-state-attributes mapping always contains the orientation, tilt-angle and
vibration-strength keys, even when the underlying fields are null. -/
theorem vibration_attributes_always_present (e : DeconzBinarySensor)
    (hkey : PROVIDES_EXTRA_ATTRIBUTES.contains e.entity_description.key = true)
    (hv : e._device.type = SensorType.Vibration) :
    (ATTR_ORIENTATION, optListValue e._device.orientation)
        ∈ e.extra_state_attributes
    ∧ (ATTR_TILTANGLE, optIntValue e._device.tilt_angle)
        ∈ e.extra_state_attributes
    ∧ (ATTR_VIBRATIONSTRENGTH, optIntValue e._device.vibration_strength)
        ∈ e.extra_state_attributes := by
  have hvib : isinstance e._device SensorType.Vibration = true := by
    unfold isinstance
    rw [hv]
    rfl
  have hnp : isinstance e._device SensorType.Presence = false := by
    unfold isinstance
    rw [hv]
    rfl
  rw [extra_attrs_flagged e hkey, hnp, hvib]
  simp

/-- Claim C8: the extra-state-attributes mapping is empty unless the description is
category-flagged; for flagged descriptions the on-state attribute is present exactly
when the sensor's on field is non-null, and the internal-temperature attribute
exactly when the internal-temperature field is non-null. -/
theorem extra_attrs_gating (e : DeconzBinarySensor) :
    (PROVIDES_EXTRA_ATTRIBUTES.contains e.entity_description.key = false →
      e.extra_state_attributes = [])
    ∧ (PROVIDES_EXTRA_ATTRIBUTES.contains e.entity_description.key = true →
      ((∃ v, (ATTR_ON, v) ∈ e.extra_state_attributes) ↔ e._device.«on» ≠ none)
      ∧ ((∃ v, (ATTR_TEMPERATURE, v) ∈ e.extra_state_attributes)
          ↔ e._device.internal_temperature ≠ none)) := by
  constructor
  · exact extra_attrs_unflagged e
  · intro hkey
    rw [extra_attrs_flagged e hkey]
    have hCon : ∀ v, (ATTR_ON, v) ∉
        (if isinstance e._device SensorType.Presence then
          match e._device.dark with
          | some v => [(ATTR_DARK, AttrValue.ofBool v)]
          | none => []
        else if isinstance e._device SensorType.Vibration then
          [(ATTR_ORIENTATION, optListValue e._device.orientation),
           (ATTR_TILTANGLE, optIntValue e._device.tilt_angle),
           (ATTR_VIBRATIONSTRENGTH, optIntValue e._device.vibration_strength)]
        else []) := by
      intro v hv
      split at hv
      · split at hv
        · simp [ATTR_ON, ATTR_DARK] at hv
        · simp at hv
      · split at hv
        · simp [ATTR_ON, ATTR_ORIENTATION, ATTR_TILTANGLE,
            ATTR_VIBRATIONSTRENGTH] at hv
        · simp at hv
    have hCtemp : ∀ v, (ATTR_TEMPERATURE, v) ∉
        (if isinstance e._device SensorType.Presence then
          match e._device.dark with
          | some v => [(ATTR_DARK, AttrValue.ofBool v)]
          | none => []
        else if isinstance e._device SensorType.Vibration then
          [(ATTR_ORIENTATION, optListValue e._device.orientation),
           (ATTR_TILTANGLE, optIntValue e._device.tilt_angle),
           (ATTR_VIBRATIONSTRENGTH, optIntValue e._device.vibration_strength)]
        else []) := by
      intro v hv
      split at hv
      · split at hv
        · simp [ATTR_TEMPERATURE, ATTR_DARK] at hv
        · simp at hv
      · split at hv
        · simp [ATTR_TEMPERATURE, ATTR_ORIENTATION, ATTR_TILTANGLE,
            ATTR_VIBRATIONSTRENGTH] at hv
        · simp at hv
    constructor
    · cases hon : e._device.«on» with
      | none =>
        simp only [List.nil_append]
        constructor
        · rintro ⟨v, hv⟩
          rcases List.mem_append.mp hv with hv | hv
          · split at hv
            · simp [ATTR_ON, ATTR_TEMPERATURE] at hv
            · simp at hv
          · exact absurd hv (hCon v)
        · intro hne
          exact absurd rfl hne
      | some b =>
        constructor
        · intro _
          simp
        · intro _
          exact ⟨AttrValue.ofBool b, by simp⟩
    · cases htemp : e._device.internal_temperature with
      | none =>
        constructor
        · rintro ⟨v, hv⟩
          rcases List.mem_append.mp hv with hv | hv
          · rcases List.mem_append.mp hv with hv | hv
            · split at hv
              · simp [ATTR_ON, ATTR_TEMPERATURE] at hv
              · simp at hv
            · simp at hv
          · exact absurd hv (hCtemp v)
        · intro hne
          exact absurd rfl hne
      | some n =>
        constructor
        · intro _
          simp
        · intro _
          refine ⟨AttrValue.ofInt n, ?_⟩
          simp [List.mem_append]

/-- Claim C9: the is_on property returns exactly the value (true, false or null) of
the description's extraction function applied to the referenced gateway sensor. -/
theorem is_on_eq_value_fn (e : DeconzBinarySensor) :
    e.is_on = e.entity_description.value_fn e._device := rfl

/-- Claim C10 (implicit): the fire-test-mode description key "in_test_mode" is not
in the extra-attributes set, so a fire sensor yields both a "fire" and an
"in_test_mode" wrapper; the test-mode wrapper's attribute mapping is empty for any
device state while the plain fire wrapper of the same sensor exposes attributes:
eligibility is keyed on the description key, not the runtime type. -/
theorem fire_test_mode (serial : String → String) (s : PydeconzSensor)
    (reg0 : EntityRegistry) (hty : s.type = SensorType.Fire)
    (hfire : s.fire.isSome = true) (htest : s.in_test_mode.isSome = true)
    (b : Bool) (hon : s.«on» = some b) :
    PROVIDES_EXTRA_ATTRIBUTES.contains "in_test_mode" = false
    ∧ (async_add_sensor serial s ⟨reg0, []⟩).entities.filter
        (fun e => e.entity_description.key == "fire")
      = [DeconzBinarySensor.mk s fireDescription]
    ∧ (async_add_sensor serial s ⟨reg0, []⟩).entities.filter
        (fun e => e.entity_description.key == "in_test_mode")
      = [DeconzBinarySensor.mk s inTestModeDescription]
    ∧ (∀ e : DeconzBinarySensor, e.entity_description.key = "in_test_mode" →
        e.extra_state_attributes = [])
    ∧ (DeconzBinarySensor.mk s fireDescription).extra_state_attributes ≠ [] := by
  have hfinst : isinstance s SensorType.Fire = true := by
    unfold isinstance
    rw [hty]
    rfl
  refine ⟨rfl, ?_, ?_, ?_, ?_⟩
  · apply handler_filter_key serial s reg0 fireDescription
      (by simp [ENTITY_DESCRIPTIONS])
    exact shouldSkip_eq_false_of s fireDescription hfinst hfire
  · apply handler_filter_key serial s reg0 inTestModeDescription
      (by simp [ENTITY_DESCRIPTIONS])
    exact shouldSkip_eq_false_of s inTestModeDescription hfinst htest
  · intro e hk
    apply extra_attrs_unflagged
    rw [hk]
    decide
  · have hA : (DeconzBinarySensor.mk s fireDescription)._device.«on» = some b := hon
    rw [extra_attrs_flagged (DeconzBinarySensor.mk s fireDescription) rfl, hA]
    simp

/-- Counterexample to claim C3 as stated: for a description with no legacy suffix
(the alarm description) and a registry holding an entity under the bare base
identifier, the code still renames that entity to the suffixed identifier, whereas
the claim says nothing is renamed when no legacy suffix is specified. -/
theorem migration_renames_base_id_counterexample :
    alarmDescription.old_unique_id_suffix = ""
    ∧ async_get_entity_id regC3 "00:11:22-alarm" = none
    ∧ async_update_unique_id (fun u => u) regC3 "00:11:22" alarmDescription
        ≠ regC3
    ∧ async_update_unique_id (fun u => u) regC3 "00:11:22" alarmDescription
        = ⟨1, [(0, "00:11:22-alarm")]⟩ := by
  refine ⟨?_, ?_, ?_, ?_⟩ <;> decide

theorem migration_spec_witness :
    RegWF regC3
    ∧ newUid "00:11:22" alarmDescription ∉ regUids regC3
    ∧ (async_update_unique_id (fun u => u) regC3 "00:11:22" alarmDescription).entries
        = [] ++ (0, newUid "00:11:22" alarmDescription) :: []
    ∧ (async_update_unique_id (fun u => u) regC3 "00:11:22"
        alarmDescription).next_id = regC3.next_id :=
  ⟨by decide, by decide,
    ((migration_spec (fun u => u) regC3 "00:11:22" alarmDescription
        (by decide)).2.2 (by decide) [] 0 [] (by decide) (by decide)).1,
    ((migration_spec (fun u => u) regC3 "00:11:22" alarmDescription
        (by decide)).2.2 (by decide) [] 0 [] (by decide) (by decide)).2⟩

theorem discovery_idempotent_witness :
    RegWF ⟨0, []⟩ ∧ (regUids ⟨0, []⟩).Nodup
    ∧ async_add_sensor (fun u => u) sAlarm
        (async_add_sensor (fun u => u) sAlarm ⟨⟨0, []⟩, []⟩)
      = async_add_sensor (fun u => u) sAlarm ⟨⟨0, []⟩, []⟩ :=
  ⟨by decide, by decide,
    (discovery_idempotent (fun u => u) sAlarm ⟨0, []⟩ (by decide) (by decide)).1⟩

theorem handler_creates_exactly_one_entity_witness :
    alarmDescription ∈ ENTITY_DESCRIPTIONS
    ∧ passesInstanceCheck sAlarm alarmDescription = true
    ∧ (alarmDescription.value_fn sAlarm).isSome = true
    ∧ ((async_add_sensor (fun u => u) sAlarm ⟨⟨0, []⟩, []⟩).entities.filter
        (fun e => e.entity_description.key == alarmDescription.key)).length = 1 :=
  ⟨by simp [ENTITY_DESCRIPTIONS], rfl, rfl,
    (handler_creates_exactly_one_entity (fun u => u) sAlarm ⟨0, []⟩
      alarmDescription (by simp [ENTITY_DESCRIPTIONS]) rfl rfl).1⟩

theorem null_extraction_suppresses_witness :
    waterDescription ∈ ENTITY_DESCRIPTIONS
    ∧ waterDescription.value_fn sAlarm = none
    ∧ addSensorStep (fun u => u) sAlarm ⟨⟨0, []⟩, []⟩ waterDescription
        = ⟨⟨0, []⟩, []⟩ :=
  ⟨by simp [ENTITY_DESCRIPTIONS], rfl,
    (null_extraction_suppresses (fun u => u) sAlarm ⟨0, []⟩ ⟨⟨0, []⟩, []⟩
      waterDescription (by simp [ENTITY_DESCRIPTIONS]) rfl).1⟩

theorem tamper_low_battery_any_type_witness :
    sAny.tampered.isSome = true
    ∧ (async_add_sensor (fun u => u) sAny ⟨⟨0, []⟩, []⟩).entities.filter
        (fun e => e.entity_description.key == "tampered")
      = [DeconzBinarySensor.mk sAny tamperedDescription] :=
  ⟨rfl, ((tamper_low_battery_any_type (fun u => u) sAny ⟨0, []⟩).1 rfl).1⟩

theorem presence_dark_attribute_witness :
    PROVIDES_EXTRA_ATTRIBUTES.contains ePresence.entity_description.key = true
    ∧ ePresence._device.type = SensorType.Presence
    ∧ ePresence._device.dark = some true
    ∧ (ATTR_DARK, AttrValue.ofBool true) ∈ ePresence.extra_state_attributes :=
  ⟨rfl, rfl, rfl, (presence_dark_attribute ePresence rfl rfl).2 true rfl⟩

theorem vibration_attributes_always_present_witness :
    PROVIDES_EXTRA_ATTRIBUTES.contains eVib.entity_description.key = true
    ∧ eVib._device.type = SensorType.Vibration
    ∧ eVib._device.orientation = none
    ∧ (ATTR_ORIENTATION, AttrValue.null) ∈ eVib.extra_state_attributes
    ∧ (ATTR_TILTANGLE, AttrValue.null) ∈ eVib.extra_state_attributes
    ∧ (ATTR_VIBRATIONSTRENGTH, AttrValue.null) ∈ eVib.extra_state_attributes :=
  ⟨rfl, rfl, rfl,
    (vibration_attributes_always_present eVib rfl rfl).1,
    (vibration_attributes_always_present eVib rfl rfl).2.1,
    (vibration_attributes_always_present eVib rfl rfl).2.2⟩

theorem extra_attrs_gating_witness :
    PROVIDES_EXTRA_ATTRIBUTES.contains eVib.entity_description.key = true
    ∧ ((∃ v, (ATTR_ON, v) ∈ eVib.extra_state_attributes)
        ↔ eVib._device.«on» ≠ none) :=
  ⟨rfl, ((extra_attrs_gating eVib).2 rfl).1⟩

theorem fire_test_mode_witness :
    sFire.type = SensorType.Fire
    ∧ sFire.fire.isSome = true
    ∧ sFire.in_test_mode.isSome = true
    ∧ sFire.«on» = some true
    ∧ (async_add_sensor (fun u => u) sFire ⟨⟨0, []⟩, []⟩).entities.filter
        (fun e => e.entity_description.key == "in_test_mode")
      = [DeconzBinarySensor.mk sFire inTestModeDescription]
    ∧ (DeconzBinarySensor.mk sFire fireDescription).extra_state_attributes ≠ [] :=
  ⟨rfl, rfl, rfl, rfl,
    (fire_test_mode (fun u => u) sFire ⟨0, []⟩ rfl rfl rfl true rfl).2.2.1,
    (fire_test_mode (fun u => u) sFire ⟨0, []⟩ rfl rfl rfl true rfl).2.2.2.2⟩
